import Mathlib

/-!
Shallow embedding of `postfinance/profiler` (Go), a lifecycle controller
that arms a debug/profiling HTTP endpoint on receipt of an OS signal,
serves for a bounded time or until cancelled, and shuts down gracefully.

Embedded source files:
  * `profiler.go`    — `Profiler`, `Start`, `startEndpoint`, `disableSignals`,
                        constants `defaultTimeout`/`defaultListen`
  * `profiler_unix.go` — `New` with the unix defaults
  * the options file  — `Option`, `WithSignal`, `WithAddress`, `WithTimeout`,
                        `WithEventHandler`, `WithHooks`

Conventions of the embedding:
  * `time.Duration` values are nanosecond counts (`Nat`), exactly as in Go.
  * `os.Signal` is the inductive `Sig` (only the signals the package and its
    tests mention are needed).
  * A `Hooker` instance and an `EventHandler` are opaque to the controller:
    they are represented by `Nat` handles; the controller only stores and
    invokes them, which the trace model records as events carrying the handle.
-/

namespace Profiler

/-- OS signals used by the package (`syscall.SIGUSR1` is the unix default;
`SIGHUP`/`SIGUSR2` appear in earlier defaults and in the tests). -/
inductive Sig where
  | SIGUSR1
  | SIGHUP
  | SIGUSR2
  deriving DecidableEq, Repr

/-- Handle standing for an integrator-supplied `Hooker` instance. -/
abbrev Hooker := Nat

/-- Handle standing for an `EventHandler` function value. -/
abbrev EventHandler := Nat

/-- One nanosecond per unit, as in Go's `time.Duration`; `time.Minute`. -/
def timeMinute : Nat := 60 * 1000000000

/-- Constant `defaultTimeout = 30 * time.Minute` from `profiler.go`. -/
def defaultTimeout : Nat := 30 * timeMinute

/-- Constant `defaultListen = ":6666"` from `profiler.go`. -/
def defaultListen : String := ":6666"

/-- The configuration fields of the `Profiler` struct (`profiler.go`):
`signal`, `address`, `timeout`, `hooks`, `evt`.  The synchronization
fields (`running sync.Mutex`) are modelled separately by `CtrlState`. -/
structure ProfilerCfg where
  signal : Sig
  address : String
  timeout : Nat
  hooks : List Hooker
  evt : EventHandler
  deriving DecidableEq, Repr

/-- Functional options of the package (the `Option` type of the options
file).  Each constructor records the argument of the corresponding
option builder (`WithHooks` is variadic, hence a list). -/
inductive ProfilerOption where
  | withSignal (s : Sig)
  | withAddress (address : String)
  | withTimeout (timeout : Nat)
  | withEventHandler (evt : EventHandler)
  | withHooks (hooks : List Hooker)
  deriving DecidableEq, Repr

/-- Application of one functional option to a `Profiler`, following the
bodies of the closures returned by `WithSignal`, `WithAddress`,
`WithTimeout`, `WithEventHandler` (plain field assignment) and
`WithHooks` (`p.hooks = append(p.hooks, hooks...)`). -/
def applyOpt (p : ProfilerCfg) : ProfilerOption → ProfilerCfg
  | .withSignal s => { p with signal := s }
  | .withAddress address => { p with address := address }
  | .withTimeout timeout => { p with timeout := timeout }
  | .withEventHandler evt => { p with evt := evt }
  | .withHooks hooks => { p with hooks := p.hooks ++ hooks }

/-- Handle for the `DefaultEventHandler()` value installed by `New`. -/
def defaultEventHandler : EventHandler := 0

/-- The struct literal built by `New` in `profiler_unix.go` before options
are applied: `signal: syscall.SIGUSR1, address: defaultListen,
timeout: defaultTimeout, evt: DefaultEventHandler()`; the `hooks` field is
left at its zero value (nil slice). -/
def defaultProfiler : ProfilerCfg :=
  { signal := .SIGUSR1
    address := defaultListen
    timeout := defaultTimeout
    hooks := []
    evt := defaultEventHandler }

/-- Function `New` of `profiler_unix.go`: start from the defaults and apply
the options in argument order (`for _, option := range options`). -/
def New (options : List ProfilerOption) : ProfilerCfg :=
  options.foldl applyOpt defaultProfiler

/-- Method `Address` of `profiler.go`: return the configured listen address. -/
def Address (p : ProfilerCfg) : String :=
  p.address

/-- The hooks contributed by a single option: `WithHooks` contributes its
argument list, every other option contributes none. -/
def hooksOf : ProfilerOption → List Hooker
  | .withHooks hooks => hooks
  | _ => []

/-- Whether an option is `WithSignal ...` (used to say "no later occurrence"). -/
def isSignalOpt : ProfilerOption → Prop
  | .withSignal _ => True
  | _ => False

/-- Whether an option is `WithAddress ...`. -/
def isAddressOpt : ProfilerOption → Prop
  | .withAddress _ => True
  | _ => False

/-- Whether an option is `WithTimeout ...`. -/
def isTimeoutOpt : ProfilerOption → Prop
  | .withTimeout _ => True
  | _ => False

/-- Whether an option is `WithEventHandler ...`. -/
def isEvtOpt : ProfilerOption → Prop
  | .withEventHandler _ => True
  | _ => False

lemma foldl_signal_invariant (post : List ProfilerOption) (p : ProfilerCfg)
    (h : ∀ o ∈ post, ¬ isSignalOpt o) :
    (post.foldl applyOpt p).signal = p.signal := by
  induction post generalizing p with
  | nil => rfl
  | cons o rest ih =>
    have ho : ¬ isSignalOpt o := h o (List.mem_cons_self o rest)
    have hrest : ∀ o' ∈ rest, ¬ isSignalOpt o' := fun o' ho' => h o' (List.mem_cons_of_mem o ho')
    rw [List.foldl_cons, ih _ hrest]
    cases o with
    | withSignal s => exact absurd trivial ho
    | withAddress a => rfl
    | withTimeout t => rfl
    | withEventHandler e => rfl
    | withHooks hs => rfl

lemma foldl_address_invariant (post : List ProfilerOption) (p : ProfilerCfg)
    (h : ∀ o ∈ post, ¬ isAddressOpt o) :
    (post.foldl applyOpt p).address = p.address := by
  induction post generalizing p with
  | nil => rfl
  | cons o rest ih =>
    have ho : ¬ isAddressOpt o := h o (List.mem_cons_self o rest)
    have hrest : ∀ o' ∈ rest, ¬ isAddressOpt o' := fun o' ho' => h o' (List.mem_cons_of_mem o ho')
    rw [List.foldl_cons, ih _ hrest]
    cases o with
    | withSignal s => rfl
    | withAddress a => exact absurd trivial ho
    | withTimeout t => rfl
    | withEventHandler e => rfl
    | withHooks hs => rfl

lemma foldl_timeout_invariant (post : List ProfilerOption) (p : ProfilerCfg)
    (h : ∀ o ∈ post, ¬ isTimeoutOpt o) :
    (post.foldl applyOpt p).timeout = p.timeout := by
  induction post generalizing p with
  | nil => rfl
  | cons o rest ih =>
    have ho : ¬ isTimeoutOpt o := h o (List.mem_cons_self o rest)
    have hrest : ∀ o' ∈ rest, ¬ isTimeoutOpt o' := fun o' ho' => h o' (List.mem_cons_of_mem o ho')
    rw [List.foldl_cons, ih _ hrest]
    cases o with
    | withSignal s => rfl
    | withAddress a => rfl
    | withTimeout t => exact absurd trivial ho
    | withEventHandler e => rfl
    | withHooks hs => rfl

lemma foldl_evt_invariant (post : List ProfilerOption) (p : ProfilerCfg)
    (h : ∀ o ∈ post, ¬ isEvtOpt o) :
    (post.foldl applyOpt p).evt = p.evt := by
  induction post generalizing p with
  | nil => rfl
  | cons o rest ih =>
    have ho : ¬ isEvtOpt o := h o (List.mem_cons_self o rest)
    have hrest : ∀ o' ∈ rest, ¬ isEvtOpt o' := fun o' ho' => h o' (List.mem_cons_of_mem o ho')
    rw [List.foldl_cons, ih _ hrest]
    cases o with
    | withSignal s => rfl
    | withAddress a => rfl
    | withTimeout t => rfl
    | withEventHandler e => exact absurd trivial ho
    | withHooks hs => rfl

lemma foldl_hooks_append (opts : List ProfilerOption) (p : ProfilerCfg) :
    (opts.foldl applyOpt p).hooks = p.hooks ++ (opts.map hooksOf).flatten := by
  induction opts generalizing p with
  | nil => simp
  | cons o rest ih =>
    rw [List.foldl_cons, ih]
    cases o with
    | withSignal s => simp [applyOpt, hooksOf]
    | withAddress a => simp [applyOpt, hooksOf]
    | withTimeout t => simp [applyOpt, hooksOf]
    | withEventHandler e => simp [applyOpt, hooksOf]
    | withHooks hs => simp [applyOpt, hooksOf]

/-- C7: `New` with no options yields listen address ":6666", a timeout in
the 10–30 minute range (it is exactly 30 minutes, `defaultTimeout`), and
the arming signal `SIGUSR1` (one of the two allowed by the spec); and
`Address()` on that Profiler returns ":6666". -/
theorem new_defaults :
    (New []).address = ":6666" ∧
    10 * timeMinute ≤ (New []).timeout ∧ (New []).timeout ≤ 30 * timeMinute ∧
    ((New []).signal = Sig.SIGUSR1 ∨ (New []).signal = Sig.SIGHUP) ∧
    Address (New []) = ":6666" := by
  refine ⟨rfl, ?_, ?_, Or.inl rfl, rfl⟩
  · norm_num [New, defaultProfiler, defaultTimeout, timeMinute]
  · norm_num [New, defaultProfiler, defaultTimeout, timeMinute]

/-- C10: `New` folds its options left-to-right over the defaults.  For each
scalar option (`WithSignal`, `WithAddress`, `WithTimeout`,
`WithEventHandler`) the last occurrence in the argument list wins: an
occurrence followed only by options of other kinds determines the field.
`WithHooks` instead appends, so the hook list of the result is the
concatenation, in argument order, of all `WithHooks` arguments. -/
theorem new_applies_options_in_order :
    (∀ pre post s, (∀ o ∈ post, ¬ isSignalOpt o) →
      (New (pre ++ ProfilerOption.withSignal s :: post)).signal = s) ∧
    (∀ pre post a, (∀ o ∈ post, ¬ isAddressOpt o) →
      (New (pre ++ ProfilerOption.withAddress a :: post)).address = a) ∧
    (∀ pre post t, (∀ o ∈ post, ¬ isTimeoutOpt o) →
      (New (pre ++ ProfilerOption.withTimeout t :: post)).timeout = t) ∧
    (∀ pre post e, (∀ o ∈ post, ¬ isEvtOpt o) →
      (New (pre ++ ProfilerOption.withEventHandler e :: post)).evt = e) ∧
    (∀ opts, (New opts).hooks = (opts.map hooksOf).flatten) := by
  refine ⟨?_, ?_, ?_, ?_, ?_⟩
  · intro pre post s h
    rw [New, List.foldl_append, List.foldl_cons]
    exact foldl_signal_invariant post _ h
  · intro pre post a h
    rw [New, List.foldl_append, List.foldl_cons]
    exact foldl_address_invariant post _ h
  · intro pre post t h
    rw [New, List.foldl_append, List.foldl_cons]
    exact foldl_timeout_invariant post _ h
  · intro pre post e h
    rw [New, List.foldl_append, List.foldl_cons]
    exact foldl_evt_invariant post _ h
  · intro opts
    rw [New, foldl_hooks_append]
    rfl

/-- Witness for C10 at a concrete option list: two `WithSignal` occurrences
(the later wins) and two `WithHooks` occurrences (they accumulate in order). -/
theorem new_applies_options_in_order_witness :
    (New [ProfilerOption.withHooks [7], ProfilerOption.withSignal Sig.SIGHUP,
          ProfilerOption.withSignal Sig.SIGUSR2, ProfilerOption.withHooks [8, 9]]).signal
      = Sig.SIGUSR2 ∧
    (New [ProfilerOption.withHooks [7], ProfilerOption.withSignal Sig.SIGHUP,
          ProfilerOption.withSignal Sig.SIGUSR2, ProfilerOption.withHooks [8, 9]]).hooks
      = [7, 8, 9] := by
  constructor
  · have h := new_applies_options_in_order.1
      [ProfilerOption.withHooks [7], ProfilerOption.withSignal Sig.SIGHUP]
      [ProfilerOption.withHooks [8, 9]] Sig.SIGUSR2
      (by intro o ho; simp at ho; subst ho; simp [isSignalOpt])
    simpa using h
  · have h := new_applies_options_in_order.2.2.2.2
      [ProfilerOption.withHooks [7], ProfilerOption.withSignal Sig.SIGHUP,
       ProfilerOption.withSignal Sig.SIGUSR2, ProfilerOption.withHooks [8, 9]]
    simpa [hooksOf] using h


/-! ### Controller running-state machine

Method `Start(ctx)` of `profiler.go` guards the watch loop with the
`running sync.Mutex`: `if !p.running.TryLock() { return }` and the spawned
goroutine holds the lock for its whole life (`defer p.running.Unlock()`),
emitting the "start profiler signal handler" event as its first action.
`CtrlState` tracks the lock, the number of live watch-loop goroutines, the
number of "start profiler signal handler" emissions and the total number of
goroutines ever spawned. -/

/-- Synchronization state of one `Profiler` value: `running` is the
`running sync.Mutex` (`true` = locked), `loops` counts watch-loop goroutines
currently alive, `startEvents` counts "start profiler signal handler"
events emitted, `spawned` counts watch-loop goroutines ever spawned. -/
structure CtrlState where
  running : Bool
  loops : Nat
  startEvents : Nat
  spawned : Nat
  deriving DecidableEq, Repr

/-- A freshly constructed Profiler: mutex unlocked, no goroutine yet. -/
def ctrlInit : CtrlState :=
  { running := false, loops := 0, startEvents := 0, spawned := 0 }

/-- One call of `Start` (`profiler.go`): `TryLock` fails while the previous
watch loop still holds the mutex, so the call returns at once and changes
nothing; otherwise it takes the lock and spawns the watch-loop goroutine,
whose first action emits the "start profiler signal handler" event. -/
def startCall (s : CtrlState) : CtrlState :=
  if s.running then s
  else
    { running := true
      loops := s.loops + 1
      startEvents := s.startEvents + 1
      spawned := s.spawned + 1 }

/-- The watch-loop goroutine returning (after observing `ctx.Done()`):
its deferred `p.running.Unlock()` runs and the goroutine ends.  A return
without a live goroutine cannot occur and is modelled as a no-op. -/
def loopReturn (s : CtrlState) : CtrlState :=
  if s.loops = 0 then s
  else
    { running := false
      loops := s.loops - 1
      startEvents := s.startEvents
      spawned := s.spawned }

/-- Actions visible at the controller boundary. -/
inductive CtrlAct where
  | start
  | ret
  deriving DecidableEq, Repr

/-- One controller transition. -/
def ctrlStep (s : CtrlState) : CtrlAct → CtrlState
  | .start => startCall s
  | .ret => loopReturn s

/-- Execution of a sequence of controller actions from a state. -/
def runCtrl (s : CtrlState) (acts : List CtrlAct) : CtrlState :=
  acts.foldl ctrlStep s

/-- The mutex discipline ties the lock to the live goroutine: the lock is
held exactly while a watch loop is alive. -/
def CtrlInv (s : CtrlState) : Prop :=
  s.loops = if s.running then 1 else 0

lemma ctrlInv_init : CtrlInv ctrlInit := rfl

lemma ctrlInv_step (s : CtrlState) (a : CtrlAct) (h : CtrlInv s) :
    CtrlInv (ctrlStep s a) := by
  cases a with
  | start =>
    unfold CtrlInv at h ⊢
    unfold ctrlStep startCall
    by_cases hr : s.running
    · simpa [hr] using h
    · simp [hr] at h
      simp [hr, h]
  | ret =>
    unfold CtrlInv at h ⊢
    unfold ctrlStep loopReturn
    by_cases hl : s.loops = 0
    · simpa [hl] using h
    · by_cases hr : s.running
      · simp [hr] at h
        simp [hl, h]
      · simp [hr] at h
        exact absurd h hl

lemma ctrlInv_run (acts : List CtrlAct) (s : CtrlState) (h : CtrlInv s) :
    CtrlInv (runCtrl s acts) := by
  induction acts generalizing s with
  | nil => exact h
  | cons a rest ih =>
    rw [runCtrl, List.foldl_cons]
    exact ih _ (ctrlInv_step s a h)

/-- C2: at most one watch loop per Profiler at any time, and `Start` is a
no-op while one is running.  In every state reachable from a fresh
Profiler at most one watch-loop goroutine is alive; a `Start` call in a
running state changes nothing (no new loop, no start event); a `Start`
call in a non-running state spawns exactly one loop and emits exactly one
"start profiler signal handler" event. -/
theorem start_spawns_at_most_one_loop :
    (∀ acts : List CtrlAct, (runCtrl ctrlInit acts).loops ≤ 1) ∧
    (∀ s : CtrlState, s.running = true → startCall s = s) ∧
    (∀ s : CtrlState, s.running = false →
      (startCall s).running = true ∧
      (startCall s).loops = s.loops + 1 ∧
      (startCall s).spawned = s.spawned + 1 ∧
      (startCall s).startEvents = s.startEvents + 1) := by
  refine ⟨?_, ?_, ?_⟩
  · intro acts
    have h := ctrlInv_run acts ctrlInit ctrlInv_init
    unfold CtrlInv at h
    rw [h]
    by_cases hr : (runCtrl ctrlInit acts).running <;> simp [hr]
  · intro s hs
    simp [startCall, hs]
  · intro s hs
    simp [startCall, hs]

/-- Witness for C2: two consecutive `Start` calls on a fresh Profiler leave
exactly one live loop; a `Start` in a running state is the identity; a
`Start` on the fresh state spawns one loop and one event. -/
theorem start_spawns_at_most_one_loop_witness :
    (runCtrl ctrlInit [CtrlAct.start, CtrlAct.start]).loops ≤ 1 ∧
    startCall { running := true, loops := 1, startEvents := 1, spawned := 1 }
      = { running := true, loops := 1, startEvents := 1, spawned := 1 } ∧
    (startCall ctrlInit).loops = 1 ∧ (startCall ctrlInit).startEvents = 1 := by
  refine ⟨start_spawns_at_most_one_loop.1 _,
    start_spawns_at_most_one_loop.2.1 _ rfl, ?_, ?_⟩
  · have h := (start_spawns_at_most_one_loop.2.2 ctrlInit rfl).2.1
    simpa [ctrlInit] using h
  · have h := (start_spawns_at_most_one_loop.2.2 ctrlInit rfl).2.2.2
    simpa [ctrlInit] using h

/-- A full start/cancel cycle, `n` times: call `Start`, then the watch loop
observes cancellation and returns. -/
def startStopCycles (n : Nat) : List CtrlAct :=
  (List.replicate n [CtrlAct.start, CtrlAct.ret]).flatten

/-- C8: the controller is reusable.  From any quiescent state (mutex free,
no live loop), `n` consecutive start/cancel cycles return the controller to
the quiescent state having spawned exactly `n` watch loops and emitted
exactly `n` start events; a further `Start` call afterwards again spawns
exactly one new loop and emits one new start event. -/
theorem controller_reusable (n : Nat) (s : CtrlState)
    (hrun : s.running = false) (hloops : s.loops = 0) :
    runCtrl s (startStopCycles n) =
      { running := false, loops := 0,
        startEvents := s.startEvents + n, spawned := s.spawned + n } ∧
    (startCall (runCtrl s (startStopCycles n))).loops = 1 ∧
    (startCall (runCtrl s (startStopCycles n))).startEvents
      = s.startEvents + n + 1 := by
  have key : ∀ m t, t.running = false → t.loops = 0 →
      runCtrl t (startStopCycles m) =
        { running := false, loops := 0,
          startEvents := t.startEvents + m, spawned := t.spawned + m } := by
    intro m
    induction m with
    | zero =>
      intro t hr hl
      cases t
      simp_all [startStopCycles, runCtrl]
    | succ k ih =>
      intro t hr hl
      have hcyc : startStopCycles (k + 1)
          = [CtrlAct.start, CtrlAct.ret] ++ startStopCycles k := by
        simp [startStopCycles, List.replicate_succ]
      rw [hcyc, runCtrl, List.foldl_append]
      have hstep : List.foldl ctrlStep t [CtrlAct.start, CtrlAct.ret] =
          { running := false, loops := t.loops,
            startEvents := t.startEvents + 1, spawned := t.spawned + 1 } := by
        simp [ctrlStep, startCall, loopReturn, hr, hl]
      rw [hstep]
      have := ih { running := false, loops := t.loops,
                   startEvents := t.startEvents + 1,
                   spawned := t.spawned + 1 } rfl hl
      rw [runCtrl] at this
      rw [this]
      simp only [CtrlState.mk.injEq, true_and]
      omega
  have hmain := key n s hrun hloops
  refine ⟨hmain, ?_, ?_⟩
  · rw [hmain]
    simp [startCall]
  · rw [hmain]
    simp [startCall]

/-- Witness for C8: three start/cancel cycles on a fresh Profiler end in the
fresh synchronization state with three loops spawned and three start
events, and a fourth `Start` spawns exactly one more loop. -/
theorem controller_reusable_witness :
    runCtrl ctrlInit (startStopCycles 3) =
      { running := false, loops := 0, startEvents := 3, spawned := 3 } ∧
    (startCall (runCtrl ctrlInit (startStopCycles 3))).loops = 1 := by
  have h := controller_reusable 3 ctrlInit rfl rfl
  exact ⟨by simpa [ctrlInit] using h.1, h.2.1⟩

/-! ### Signal subscription channel

The watch loop allocates `sigC := make(chan os.Signal, 1)` — a buffered
channel of capacity one — and alternates `signal.Notify(sigC, p.signal)`
with `disableSignals(sigC)`.  A `SigChan` records whether `signal.Notify`
is currently active and the contents of the one-slot buffer. -/

/-- State of the capacity-1 signal channel together with its subscription
status with the `os/signal` package. -/
structure SigChan where
  subscribed : Bool
  pending : Bool
  deriving DecidableEq, Repr

/-- Call `signal.Notify(sigC, p.signal)`: delivery of the configured signal
to the channel begins; the buffer is untouched. -/
def signalNotify (c : SigChan) : SigChan :=
  { c with subscribed := true }

/-- Call `signal.Stop(sigC)`: delivery stops; the buffer is untouched. -/
def signalStop (c : SigChan) : SigChan :=
  { c with subscribed := false }

/-- The OS delivers the configured signal: while subscribed, the `os/signal`
package performs a non-blocking send on the capacity-1 channel, so the
notification is stored if the buffer is free and dropped otherwise; while
not subscribed nothing is delivered. -/
def signalDeliver (c : SigChan) : SigChan :=
  if c.subscribed then { c with pending := true } else c

/-- The drain step of `disableSignals` (`profiler.go`): a `select` with a
receive case on `sigC` and a `default` case, removing the buffered
notification if one is present and returning at once otherwise.  One
non-blocking receive empties a capacity-1 channel. -/
def drainOnce (c : SigChan) : SigChan :=
  if c.pending then { c with pending := false } else c

/-- Function `disableSignals` of `profiler.go`: `signal.Stop(sigC)` followed
by the drain `select`. -/
def disableSignals (c : SigChan) : SigChan :=
  drainOnce (signalStop c)

/-- C6: `disableSignals` unsubscribes and leaves no pending notification:
after it runs, delivery is stopped and the channel buffer is empty, and a
fresh `signal.Notify` (the next loop iteration's resubscribe) still finds
the buffer empty, so a stale notification cannot re-trigger a session. -/
theorem disableSignals_discards_pending (c : SigChan) :
    (disableSignals c).subscribed = false ∧
    (disableSignals c).pending = false ∧
    (signalNotify (disableSignals c)).pending = false := by
  unfold disableSignals drainOnce signalStop signalNotify
  by_cases hp : c.pending <;> simp [hp]

/-! ### The shutdown race in `startEndpoint`

After spawning the server goroutine, `startEndpoint` (`profiler.go`) runs

    timer := time.NewTimer(p.timeout)
    select {
    case <-timer.C:      // timer expired
    case <-ctx.Done():   // context canceled
        timer.Stop()
    }

and only then proceeds to `srv.Shutdown`.  The `select` has exactly these
two cases; the `shutdown` channel that the server goroutine closes when
`ListenAndServe` returns (in particular immediately after a failed bind) is
not among them.  Times are abstract instants (`Nat`, measured from session
start); `cancelAt` is the instant the context is cancelled (`none` if
never) and `bindClosedAt` the instant the server goroutine closed
`shutdown` after a bind failure (`none` if the bind succeeded). -/

/-- Wake-up instant of a Go `select` waiting on the timeout timer and on
`ctx.Done()`: whichever becomes ready first. -/
def selectWake (timeout : Nat) (cancelAt : Option Nat) : Nat :=
  match cancelAt with
  | none => timeout
  | some c => min timeout c

/-- Instant at which `startEndpoint` initiates shutdown (emits the
"stop debug endpoint" event and calls `srv.Shutdown`).  It is the wake-up
instant of the two-case `select` above; `bindClosedAt` is passed only to
record that the code does not consult it. -/
def shutdownInitiatedAt (timeout : Nat) (cancelAt : Option Nat)
    (bindClosedAt : Option Nat) : Nat :=
  selectWake timeout cancelAt

/-- Counterexample to C3's second half: with timeout 10, no cancellation,
and a bind that already failed at instant 0, the session does not skip to
shutdown at instant 0 — it initiates shutdown only at instant 10, when the
timer fires. -/
theorem bind_failure_waits_full_timeout :
    shutdownInitiatedAt 10 none (some 0) = 10 ∧
    ¬ shutdownInitiatedAt 10 none (some 0) ≤ 0 := by
  constructor
  · rfl
  · intro h
    simp [shutdownInitiatedAt, selectWake] at h

/-- C3 (amended): a timer of length `timeout` is raced against the
cancellation signal and whichever fires first initiates shutdown; a bind
failure does not short-circuit this wait — the instant shutdown is
initiated is independent of when (or whether) the bind failed, so after a
failed bind the session still waits for the timer or for cancellation. -/
theorem timer_races_cancellation :
    (∀ timeout c b, shutdownInitiatedAt timeout (some c) b = min timeout c) ∧
    (∀ timeout b, shutdownInitiatedAt timeout none b = timeout) ∧
    (∀ timeout cancelAt b₁ b₂,
      shutdownInitiatedAt timeout cancelAt b₁
        = shutdownInitiatedAt timeout cancelAt b₂) := by
  refine ⟨fun _ _ _ => rfl, fun _ _ => rfl, fun _ cancelAt _ _ => ?_⟩
  cases cancelAt <;> rfl

/-! ### Trace model of a session and of the watch loop

`startEndpoint` (`profiler.go`) builds the `http.Server`, spawns the server
goroutine and coordinates shutdown.  The server goroutine runs, in program
order: the "start debug endpoint" event, every hook's `PreStart`, the
`srv.ListenAndServe()` call, on a non-`ErrServerClosed` return the
"start debug endpoint" Error event, every hook's `PostShutdown`, and
finally `close(shutdown)`.  The coordinator, after its timer/cancellation
`select`, runs the "stop debug endpoint" event, `srv.Shutdown`, on error
the "shutdown debug endpoint" Error event, then `<-shutdown` and the final
"debug endpoint stopped" event.  A session trace is any interleaving of
the two program orders compatible with the one synchronization between
them: the `<-shutdown` receive can complete only after `close(shutdown)`,
the server goroutine's last statement, so every server-goroutine event
precedes the receive, and the only coordinator actions after the receive
are the final event and the return. -/

/-- Observable actions of one session and of the watch loop.  The `ev*`
constructors are `p.evt(...)` emissions; the rest are the calls and channel
operations of `profiler.go` named after the corresponding statement. -/
inductive Ev where
  | evStartHandler
  | evStopHandler
  | evHandlerStopped
  | serverCreate
  | evStartEndpoint
  | preStart (h : Hooker)
  | listen
  | evStartError
  | postShutdown (h : Hooker)
  | closeShutdown
  | timerStop
  | evStopEndpoint
  | srvShutdown
  | evShutdownError
  | recvShutdown
  | evStopped
  deriving DecidableEq, Repr

/-- Program order of the server goroutine spawned by `startEndpoint`:
`bindOk = false` is the bind-failure case, in which `ListenAndServe`
returns a non-`ErrServerClosed` error at once and the Error event is
emitted; with `bindOk = true` it returns `ErrServerClosed` after the
coordinator's `srv.Shutdown` and no Error event is emitted.  Either way
the `PostShutdown` hooks run and `shutdown` is closed. -/
def serverTask (hooks : List Hooker) (bindOk : Bool) : List Ev :=
  Ev.evStartEndpoint :: hooks.map Ev.preStart ++ [Ev.listen]
    ++ (if bindOk then [] else [Ev.evStartError])
    ++ hooks.map Ev.postShutdown ++ [Ev.closeShutdown]

/-- Program order of the coordinator in `startEndpoint` from its `select`
up to (but not including) the `<-shutdown` receive: `timerExpired = true`
is the timer case, `false` the `ctx.Done()` case (which stops the timer);
`sdErr` records whether `srv.Shutdown` returned an error. -/
def coordTask (timerExpired sdErr : Bool) : List Ev :=
  (if timerExpired then [] else [Ev.timerStop])
    ++ [Ev.evStopEndpoint, Ev.srvShutdown]
    ++ (if sdErr then [Ev.evShutdownError] else [])

/-- Interleaving of two sequences preserving each one's internal order. -/
inductive Interleave : List Ev → List Ev → List Ev → Prop where
  | nil : Interleave [] [] []
  | cons_left {a b t : List Ev} (x : Ev) :
      Interleave a b t → Interleave (x :: a) b (x :: t)
  | cons_right {a b t : List Ev} (x : Ev) :
      Interleave a b t → Interleave a (x :: b) (x :: t)

/-- The traces one call of `startEndpoint` can produce: the server
construction first (it precedes the `go` statement), then any interleaving
of the two concurrent program orders, then the `<-shutdown` receive and
the final "debug endpoint stopped" event, which the synchronization on the
`shutdown` channel forces after every server-goroutine action. -/
def SessionTrace (hooks : List Hooker) (bindOk timerExpired sdErr : Bool)
    (t : List Ev) : Prop :=
  ∃ u, Interleave (serverTask hooks bindOk) (coordTask timerExpired sdErr) u ∧
    t = Ev.serverCreate :: u ++ [Ev.recvShutdown, Ev.evStopped]

/-- What the watch loop's `select` observes at one iteration: a delivered
signal notification (with the parameters of the session it triggers) or
context cancellation. -/
inductive LoopInput where
  | signal (bindOk timerExpired sdErr : Bool)
  | cancel
  deriving DecidableEq, Repr

/-- Traces of the `for`/`select` watch loop in `Start` (`profiler.go`),
indexed by the sequence of inputs its `select` observes.  A signal runs
one session synchronously (between `wg.Add(1)` and `wg.Done()`) and loops
back to `signal.Notify`; cancellation emits "stop profiler signal handler",
unsubscribes, waits on the WaitGroup (the session is already drained)
and emits "profiler signal handler stopped" before returning; with no
further input the loop stays blocked in its `select`. -/
inductive HandlerRun (hooks : List Hooker) : List LoopInput → List Ev → Prop where
  | blocked : HandlerRun hooks [] []
  | cancelStep (rest : List LoopInput) :
      HandlerRun hooks (LoopInput.cancel :: rest)
        [Ev.evStopHandler, Ev.evHandlerStopped]
  | signalStep {bindOk timerExpired sdErr : Bool} {rest : List LoopInput}
      {ts tr : List Ev} :
      SessionTrace hooks bindOk timerExpired sdErr ts →
      HandlerRun hooks rest tr →
      HandlerRun hooks (LoopInput.signal bindOk timerExpired sdErr :: rest)
        (ts ++ tr)

/-- Traces of the goroutine spawned by `Start`: it emits
"start profiler signal handler" and then runs the watch loop. -/
def StartRun (hooks : List Hooker) (inputs : List LoopInput)
    (t : List Ev) : Prop :=
  ∃ u, HandlerRun hooks inputs u ∧ t = Ev.evStartHandler :: u

/-- Selects the `PostShutdown` invocations of a trace. -/
def isPost : Ev → Bool
  | .postShutdown _ => true
  | _ => false

/-- Selects the `PreStart` invocations and the `ListenAndServe` call. -/
def isPreOrListen : Ev → Bool
  | .preStart _ => true
  | .listen => true
  | _ => false

lemma interleave_filter (p : Ev → Bool) {a b t : List Ev}
    (h : Interleave a b t) :
    Interleave (a.filter p) (b.filter p) (t.filter p) := by
  induction h with
  | nil => exact .nil
  | cons_left x _ ih =>
    rw [List.filter_cons, List.filter_cons]
    cases hp : p x with
    | false => exact ih
    | true => exact .cons_left x ih
  | cons_right x _ ih =>
    rw [List.filter_cons, List.filter_cons]
    cases hp : p x with
    | false => exact ih
    | true => exact .cons_right x ih

lemma interleave_nil_left {b t : List Ev} (h : Interleave [] b t) : t = b := by
  generalize ha : ([] : List Ev) = a at h
  induction h with
  | nil => rfl
  | cons_left x _ _ => exact absurd ha (by simp)
  | cons_right x _ ih => rw [ih ha]

lemma interleave_nil_right {a t : List Ev} (h : Interleave a [] t) : t = a := by
  generalize hb : ([] : List Ev) = b at h
  induction h with
  | nil => rfl
  | cons_left x _ ih => rw [ih hb]
  | cons_right x _ _ => exact absurd hb (by simp)

lemma interleave_mem_left {a b t : List Ev} {x : Ev}
    (h : Interleave a b t) (hx : x ∈ a) : x ∈ t := by
  induction h with
  | nil => exact absurd hx (by simp)
  | cons_left y _ ih =>
    rcases List.mem_cons.mp hx with hxy | hxa
    · exact hxy ▸ List.mem_cons_self _ _
    · exact List.mem_cons_of_mem _ (ih hxa)
  | cons_right y _ ih => exact List.mem_cons_of_mem _ (ih hx)

lemma interleave_append (a b : List Ev) : Interleave a b (a ++ b) := by
  induction a with
  | nil =>
    induction b with
    | nil => exact .nil
    | cons x bs ih => simpa using Interleave.cons_right x ih
  | cons x as ih => simpa using Interleave.cons_left x ih

lemma filter_post_map_pre (hooks : List Hooker) :
    (hooks.map Ev.preStart).filter isPost = [] := by
  induction hooks with
  | nil => rfl
  | cons h rest ih => simp [List.filter_cons, isPost, ih]

lemma filter_post_map_post (hooks : List Hooker) :
    (hooks.map Ev.postShutdown).filter isPost = hooks.map Ev.postShutdown := by
  induction hooks with
  | nil => rfl
  | cons h rest ih => simp [List.filter_cons, isPost, ih]

lemma filter_prelisten_map_pre (hooks : List Hooker) :
    (hooks.map Ev.preStart).filter isPreOrListen = hooks.map Ev.preStart := by
  induction hooks with
  | nil => rfl
  | cons h rest ih => simp [List.filter_cons, isPreOrListen, ih]

lemma filter_prelisten_map_post (hooks : List Hooker) :
    (hooks.map Ev.postShutdown).filter isPreOrListen = [] := by
  induction hooks with
  | nil => rfl
  | cons h rest ih => simp [List.filter_cons, isPreOrListen, ih]

lemma serverTask_filter_post (hooks : List Hooker) (bindOk : Bool) :
    (serverTask hooks bindOk).filter isPost = hooks.map Ev.postShutdown := by
  cases bindOk <;>
    simp [serverTask, List.filter_append, List.filter_cons, isPost,
      filter_post_map_pre, filter_post_map_post]

lemma coordTask_filter_post (timerExpired sdErr : Bool) :
    (coordTask timerExpired sdErr).filter isPost = [] := by
  cases timerExpired <;> cases sdErr <;>
    simp [coordTask, List.filter_append, List.filter_cons, isPost]

lemma serverTask_filter_prelisten (hooks : List Hooker) (bindOk : Bool) :
    (serverTask hooks bindOk).filter isPreOrListen
      = hooks.map Ev.preStart ++ [Ev.listen] := by
  cases bindOk <;>
    simp [serverTask, List.filter_append, List.filter_cons, isPreOrListen,
      filter_prelisten_map_pre, filter_prelisten_map_post]

lemma coordTask_filter_prelisten (timerExpired sdErr : Bool) :
    (coordTask timerExpired sdErr).filter isPreOrListen = [] := by
  cases timerExpired <;> cases sdErr <;>
    simp [coordTask, List.filter_append, List.filter_cons, isPreOrListen]


/-- C1: in every session, every registered hook's `PostShutdown` runs
exactly once, in registration order, strictly before the session's final
"debug endpoint stopped" event — for every bind outcome, race outcome
(timeout or cancellation) and shutdown-error outcome, and in every
admissible interleaving of the server goroutine with the coordinator:
the trace splits as `u ++ [evStopped]` with the `PostShutdown` events of
`u` exactly `hooks.map postShutdown`. -/
theorem postShutdown_once_before_completion
    (hooks : List Hooker) (bindOk timerExpired sdErr : Bool) (t : List Ev)
    (h : SessionTrace hooks bindOk timerExpired sdErr t) :
    ∃ u, t = u ++ [Ev.evStopped] ∧
      u.filter isPost = hooks.map Ev.postShutdown := by
  obtain ⟨w, hw, ht⟩ := h
  have hf := interleave_filter isPost hw
  rw [serverTask_filter_post, coordTask_filter_post] at hf
  have hfw := interleave_nil_right hf
  refine ⟨Ev.serverCreate :: w ++ [Ev.recvShutdown], ?_, ?_⟩
  · rw [ht]
    simp
  · simp [List.filter_append, List.filter_cons, isPost, hfw]

/-- Witness for C1: a two-hook session with a failed bind, expired timer
and clean shutdown, at the interleaving that runs the whole server
goroutine first. -/
theorem postShutdown_once_before_completion_witness :
    ∃ u, (Ev.serverCreate :: (serverTask [0, 1] false ++ coordTask true false)
        ++ [Ev.recvShutdown, Ev.evStopped]) = u ++ [Ev.evStopped] ∧
      u.filter isPost = [Ev.postShutdown 0, Ev.postShutdown 1] := by
  have hs : SessionTrace [0, 1] false true false
      (Ev.serverCreate :: (serverTask [0, 1] false ++ coordTask true false)
        ++ [Ev.recvShutdown, Ev.evStopped]) :=
    ⟨serverTask [0, 1] false ++ coordTask true false,
      interleave_append _ _, by simp⟩
  simpa using postShutdown_once_before_completion [0, 1] false true false _ hs

/-- C4: in every session all registered hooks' `PreStart` callbacks run and
return, in registration order, strictly before `ListenAndServe` is
invoked: in every admissible trace the subsequence of `PreStart` and
`ListenAndServe` events is exactly `hooks.map preStart` followed by the
single `listen` event. -/
theorem preStart_completes_before_listen
    (hooks : List Hooker) (bindOk timerExpired sdErr : Bool) (t : List Ev)
    (h : SessionTrace hooks bindOk timerExpired sdErr t) :
    t.filter isPreOrListen = hooks.map Ev.preStart ++ [Ev.listen] := by
  obtain ⟨w, hw, ht⟩ := h
  have hf := interleave_filter isPreOrListen hw
  rw [serverTask_filter_prelisten, coordTask_filter_prelisten] at hf
  have hfw := interleave_nil_right hf
  subst ht
  simp [List.filter_append, List.filter_cons, isPreOrListen, hfw]

/-- Witness for C4: a two-hook session with a successful bind, cancellation
before the timer, and a shutdown error, at the interleaving that runs the
whole server goroutine first. -/
theorem preStart_completes_before_listen_witness :
    (Ev.serverCreate :: (serverTask [2, 3] true ++ coordTask false true)
        ++ [Ev.recvShutdown, Ev.evStopped]).filter isPreOrListen
      = [Ev.preStart 2, Ev.preStart 3, Ev.listen] := by
  have hs : SessionTrace [2, 3] true false true
      (Ev.serverCreate :: (serverTask [2, 3] true ++ coordTask false true)
        ++ [Ev.recvShutdown, Ev.evStopped]) :=
    ⟨serverTask [2, 3] true ++ coordTask false true,
      interleave_append _ _, by simp⟩
  simpa using preStart_completes_before_listen [2, 3] true false true _ hs

/-- C5: session failures are contained.  A bind failure is reported only
through the event stream (the "start debug endpoint" Error event is in the
session trace), and it does not abort the watch loop: a loop run whose
first input is a signal triggering a failed session is exactly one failed
session followed by an unrestricted run of the loop on the remaining
inputs, which can contain further full sessions.  (`Start` itself returns
no value in the source, so no session failure can reach its caller.) -/
theorem bind_failure_contained :
    (∀ (hooks : List Hooker) (timerExpired sdErr : Bool) (t : List Ev),
      SessionTrace hooks false timerExpired sdErr t → Ev.evStartError ∈ t) ∧
    (∀ (hooks : List Hooker) (timerExpired sdErr : Bool)
        (rest : List LoopInput) (tt : List Ev),
      HandlerRun hooks (LoopInput.signal false timerExpired sdErr :: rest) tt →
      ∃ ts tr, SessionTrace hooks false timerExpired sdErr ts ∧
        HandlerRun hooks rest tr ∧ tt = ts ++ tr) := by
  constructor
  · intro hooks te se t h
    obtain ⟨w, hw, ht⟩ := h
    have hmem : Ev.evStartError ∈ serverTask hooks false := by
      simp [serverTask]
    have hw' := interleave_mem_left hw hmem
    subst ht
    simp [hw']
  · intro hooks te se rest tt h
    cases h with
    | signalStep hs hr => exact ⟨_, _, hs, hr, rfl⟩

/-- Witness for C5: a one-hook failed session reports the Error event, and
a loop run consisting of that failed session followed by cancellation
decomposes into the session and the remaining run. -/
theorem bind_failure_contained_witness :
    Ev.evStartError ∈ (Ev.serverCreate ::
        (serverTask [4] false ++ coordTask true false)
        ++ [Ev.recvShutdown, Ev.evStopped]) ∧
    ∃ ts tr, SessionTrace [4] false true false ts ∧
      HandlerRun [4] [LoopInput.cancel] tr ∧
      (Ev.serverCreate :: (serverTask [4] false ++ coordTask true false)
          ++ [Ev.recvShutdown, Ev.evStopped])
        ++ [Ev.evStopHandler, Ev.evHandlerStopped] = ts ++ tr := by
  have hs : SessionTrace [4] false true false
      (Ev.serverCreate :: (serverTask [4] false ++ coordTask true false)
        ++ [Ev.recvShutdown, Ev.evStopped]) :=
    ⟨serverTask [4] false ++ coordTask true false,
      interleave_append _ _, by simp⟩
  exact ⟨bind_failure_contained.1 [4] true false _ hs,
    bind_failure_contained.2 [4] true false [LoopInput.cancel] _
      (HandlerRun.signalStep hs (HandlerRun.cancelStep []))⟩

/-- C9: if the watch loop observes cancellation before any signal
notification, its goroutine's whole trace is the three handler events —
no hook's `PreStart` or `PostShutdown` is invoked, no `http.Server` is
constructed, and `ListenAndServe` is never called. -/
theorem cancel_before_signal_runs_nothing
    (hooks : List Hooker) (rest : List LoopInput) (t : List Ev)
    (h : StartRun hooks (LoopInput.cancel :: rest) t) :
    t = [Ev.evStartHandler, Ev.evStopHandler, Ev.evHandlerStopped] ∧
    (∀ i : Hooker, Ev.preStart i ∉ t ∧ Ev.postShutdown i ∉ t) ∧
    Ev.serverCreate ∉ t ∧ Ev.listen ∉ t := by
  obtain ⟨u, hu, ht⟩ := h
  cases hu with
  | cancelStep =>
    subst ht
    refine ⟨rfl, fun i => ⟨?_, ?_⟩, ?_, ?_⟩ <;> simp

/-- Witness for C9: a one-hook Profiler whose loop is cancelled first. -/
theorem cancel_before_signal_runs_nothing_witness :
    ([Ev.evStartHandler, Ev.evStopHandler, Ev.evHandlerStopped] : List Ev)
        = [Ev.evStartHandler, Ev.evStopHandler, Ev.evHandlerStopped] ∧
    (∀ i : Hooker,
      Ev.preStart i ∉
        ([Ev.evStartHandler, Ev.evStopHandler, Ev.evHandlerStopped] : List Ev) ∧
      Ev.postShutdown i ∉
        ([Ev.evStartHandler, Ev.evStopHandler, Ev.evHandlerStopped] : List Ev)) ∧
    Ev.serverCreate ∉
      ([Ev.evStartHandler, Ev.evStopHandler, Ev.evHandlerStopped] : List Ev) ∧
    Ev.listen ∉
      ([Ev.evStartHandler, Ev.evStopHandler, Ev.evHandlerStopped] : List Ev) :=
  cancel_before_signal_runs_nothing [5] [] _
    ⟨[Ev.evStopHandler, Ev.evHandlerStopped], HandlerRun.cancelStep [], rfl⟩

end Profiler
